import Mathlib

/-!
Verification of the apputils-extension plugin descriptors
(packages/apputils-extension/src/index.ts): the settings connector, the
change-theme command, the splash-screen reference counting, the state
database activation (transform promise, routing, load/save commands).

Shallow embedding notes:
* JavaScript promises settle at most once; a second resolve call is a
  platform-level no-op.  The transform cell is therefore an
  Option (DataTransform) updated through resolveOnce (first write wins).
* The code is single threaded.  The load command's synchronous prefix
  (regex match, history.replaceState, resolved = true) cannot be
  interleaved with the routed signal, and the only effect of the later
  fetch continuation is a resolveOnce on the transform cell, so a load
  event is modelled atomically carrying its eventual fetch outcome;
  event order in a trace stands for settlement order.
* console.log and console.warn are modelled as appended message lists.
-/

/-! ## SettingsConnector (lines 67-96 of index.ts) -/

/-- Model of `ISettingRegistry.IPlugin`: the id field that the connector
overwrites plus an opaque payload standing for the remaining fields. -/
structure PluginBundle where
  id : String
  raw : String
  deriving DecidableEq, Repr

/-- Model of `SettingsConnector.fetch`: `this._manager.settings.fetch(id)`
followed by `data.id = id` on success; a rejected remote call propagates
(there is no catch). The remote settings service is a parameter. -/
def connectorFetch (remote : String → Except String PluginBundle)
    (id : String) : Except String PluginBundle :=
  match remote id with
  | Except.ok d => Except.ok { d with id := id }
  | Except.error e => Except.error e

/-- Concrete remote settings service used to exercise `connectorFetch`:
it mangles every id and is down for one particular id. -/
def remoteMangling : String → Except String PluginBundle :=
  fun i => if i = "down:svc" then Except.error "network" else Except.ok ⟨"server-normalized", "contents"⟩

/-! ## change-theme command (lines 146-158 of index.ts) -/

/-- Model of the slice of `ThemeManager` the command reads: `manager.theme`
is a string or null before any theme has loaded. -/
structure ThemeMgr where
  theme : Option String
  deriving DecidableEq, Repr

/-- Observable outcome of the `execute` handler: either no call is made
(early return, manager untouched) or `manager.setTheme(name)` is invoked. -/
inductive ThemeAct
  | noop
  | set (name : String)
  deriving DecidableEq, Repr

/-- Model of the `execute` handler of `apputils:change-theme`:
`if (args['theme'] === manager.theme) return; manager.setTheme(...)`. -/
def changeThemeExecute (mgr : ThemeMgr) (argTheme : String) : ThemeAct :=
  if mgr.theme = some argTheme then ThemeAct.noop else ThemeAct.set argTheme

/-- Model of the `label` callback:
`args['isPalette'] ? 'Use <theme> Theme' : theme`. -/
def changeThemeLabel (argTheme : String) (isPalette : Bool) : String :=
  if isPalette then "Use " ++ argTheme ++ " Theme" else argTheme

/-- Model of the `isToggled` callback: `args['theme'] === manager.theme`
(strict equality against a possibly null current theme). -/
def changeThemeIsToggled (mgr : ThemeMgr) (argTheme : String) : Bool :=
  decide (mgr.theme = some argTheme)

/-! ## Splash screen singleton (Private.showSplash, lines 339-389) -/

/-- Delay in milliseconds passed to `setTimeout` before the splash node is
physically removed (line 386 of index.ts). -/
def fadeDelayMs : Nat := 500

/-- Module-level splash state: `created` is `splash !== null`, `fading`
tracks the `splash-fade` class, `attached` tracks membership in
`document.body`, `count` is `splashCount` (an Int so that the
non-negativity claim is meaningful), and `pending` is the queue of
scheduled removal timeouts with their delays. -/
structure SplashSt where
  created : Bool
  fading : Bool
  attached : Bool
  count : Int
  pending : List Nat
  deriving DecidableEq, Repr

/-- Initial module state: `splash = null`, `splashCount = 0`. -/
def initSp : SplashSt := ⟨false, false, false, 0, []⟩

/-- Splash events: a `showSplash()` call, the dispose delegate of a
returned handle running, and a scheduled removal timeout firing. -/
inductive SpEv
  | showSplash
  | dispose
  | timeout
  deriving DecidableEq, Repr

/-- One splash event. `showSplash` lazily creates the node, removes the
`splash-fade` class, re-appends the node and increments the count; it does
not cancel any pending `setTimeout`. `dispose` floors the decrement at
zero (`Math.max(splashCount - 1, 0)`) and, exactly when the new count is
zero and the node exists, adds the fade class and schedules removal after
`fadeDelayMs`. `timeout` runs the earliest scheduled
`document.body.removeChild(splash)`. -/
def stepSp (s : SplashSt) : SpEv → SplashSt
  | SpEv.showSplash =>
      { s with created := true, fading := false, attached := true, count := s.count + 1 }
  | SpEv.dispose =>
      if max (s.count - 1) 0 = 0 ∧ s.created = true then
        { s with count := max (s.count - 1) 0, fading := true,
                 pending := s.pending ++ [fadeDelayMs] }
      else
        { s with count := max (s.count - 1) 0 }
  | SpEv.timeout =>
      match s.pending with
      | [] => s
      | _ :: rest => { s with pending := rest, attached := false }

/-- Run a sequence of splash events from the initial module state. -/
def runSp (tr : List SpEv) : SplashSt := tr.foldl stepSp initSp

/-! ## State database plugin (state.activate, lines 212-309) -/

/-- Transform variants of `StateDB.DataTransform`: only `overwrite` and
`cancel` are produced by this plugin. -/
inductive TType
  | overwrite
  | cancel
  deriving DecidableEq, Repr

/-- Model of `StateDB.DataTransform`: a type tag plus the contents payload
(`null` is `none`); the workspace data payload type is a parameter. -/
structure DataTransform (α : Type) where
  type : TType
  contents : Option α
  deriving DecidableEq, Repr

/-- First write wins: model of resolving a JavaScript promise, which
settles at most once and silently drops later resolve calls. -/
def resolveOnce {α : Type} (cur : Option (DataTransform α))
    (v : DataTransform α) : Option (DataTransform α) :=
  match cur with
  | some w => some w
  | none => some v

/-- Message logged by the `unload` handler (line 237 of index.ts). -/
def noWorkspaceRequestedMsg : String :=
  "No workspace requested. Leaving state database intact."

/-- Message logged by the load command's empty-workspace branch
(line 287 of index.ts). -/
def noWorkspaceFoundMsg : String :=
  "No workspace found. Leaving state database intact."

/-- Warning logged when the workspace fetch rejects (line 296). -/
def fetchFailedWarning (w : String) : String :=
  "Fetching workspace (" ++ w ++ ") failed."

/-- Warning logged when the workspace save rejects (line 264). -/
def saveFailedWarning : String := "Saving workspace failed."

/-- Error thrown by `(args.path || '').match(pattern)[1]` when the match
result is null (line 272). -/
def nullIndexTypeError : String :=
  "TypeError: cannot read property 1 of null"

/-- Activation-scoped state of the state database plugin: the `resolved`
flag, the transform promise cell, whether `unload` is still connected to
`router.routed`, whether the load command and its route registration are
still registered (the `disposables` set has not been disposed), whether
`window.history.replaceState` has rewritten the URL, and the console
log/warning streams. -/
structure StateSt (α : Type) where
  resolved : Bool
  transform : Option (DataTransform α)
  connected : Bool
  registered : Bool
  urlRewritten : Bool
  logs : List String
  warnings : List String
  deriving DecidableEq, Repr

/-- State right after `state.activate` returns: nothing resolved, the
`routed` listener connected, the load command registered. -/
def initS (α : Type) : StateSt α :=
  ⟨false, none, true, true, false, [], []⟩

/-- Model of the JavaScript `.` character class without the `s` flag: any
character except the four line terminators. -/
def jsDot (c : Char) : Bool :=
  !(c == '\n' || c == '\r' || c == '\u2028' || c == '\u2029')

/-- Strip a literal leading pattern from a character list, or fail. -/
def chopLead : List Char → List Char → Option (List Char)
  | [], rest => some rest
  | _ :: _, [] => none
  | p :: ps, c :: cs => if c == p then chopLead ps cs else none

/-- Model of matching `pattern = /^\/workspaces\/(.+)/` (line 229) against
a path and extracting capture group 1: the literal prefix "/workspaces/"
anchored at the start, then a greedy non-empty run of `.`-matching
characters. Returns `none` exactly when `String.match` returns null. -/
def matchWorkspace (path : String) : Option String :=
  match chopLead "/workspaces/".data path.data with
  | none => none
  | some rest =>
      if (rest.takeWhile jsDot).isEmpty then none
      else some (String.mk (rest.takeWhile jsDot))

/-- Model of the `apputils:load-statedb` execute handler (lines 271-299).
`(args.path || '').match(pattern)[1]` throws a TypeError when the path
does not match, before any state is touched.  On a match the handler
rewrites the URL, sets `resolved = true`, and resolves the transform:
`cancel` if the extracted workspace id is falsy (with a console.log),
otherwise `overwrite` with the fetched data on fetch success or `cancel`
with a console.warn on fetch failure (`fetched = none`). -/
def loadExecuteChecked {α : Type} (path : String) (fetched : Option α)
    (s : StateSt α) : Except String (StateSt α) :=
  match matchWorkspace path with
  | none => Except.error nullIndexTypeError
  | some w =>
      if w = "" then
        Except.ok { s with urlRewritten := true, resolved := true,
                           transform := resolveOnce s.transform ⟨TType.cancel, none⟩,
                           logs := s.logs ++ [noWorkspaceFoundMsg] }
      else
        match fetched with
        | some data =>
            Except.ok { s with urlRewritten := true, resolved := true,
                               transform := resolveOnce s.transform ⟨TType.overwrite, some data⟩ }
        | none =>
            Except.ok { s with urlRewritten := true, resolved := true,
                               transform := resolveOnce s.transform ⟨TType.cancel, none⟩,
                               warnings := s.warnings ++ [fetchFailedWarning w] }

/-- Model of the `unload` handler (lines 230-240): dispose the command and
route registrations, disconnect from `router.routed`, and if `resolved` is
still false, log and resolve the transform with `cancel`. -/
def unloadRun {α : Type} (s : StateSt α) : StateSt α :=
  if s.resolved = true then
    { s with registered := false, connected := false }
  else
    { s with registered := false, connected := false,
             transform := resolveOnce s.transform ⟨TType.cancel, none⟩,
             logs := s.logs ++ [noWorkspaceRequestedMsg] }

/-- Events observable by one activation of the state plugin: the
`router.routed` signal firing, and an execution of the load command with a
path argument and the eventual outcome of its workspace fetch. -/
inductive StEv (α : Type)
  | routed
  | load (path : String) (fetched : Option α)
  deriving DecidableEq, Repr

/-- One event.  A `routed` signal runs `unload` only while it is still
connected.  A `load` execution is possible only while the command
registration is alive (after `disposables.dispose()` the command registry
rejects the execution); a TypeError thrown by the null match leaves the
state untouched. -/
def stepS {α : Type} (s : StateSt α) : StEv α → StateSt α
  | StEv.routed => if s.connected = true then unloadRun s else s
  | StEv.load path fetched =>
      if s.registered = true then
        match loadExecuteChecked path fetched s with
        | Except.ok s2 => s2
        | Except.error _ => s
      else s

/-- Run a trace of events from the activation state. -/
def runS {α : Type} (tr : List (StEv α)) : StateSt α :=
  tr.foldl stepS (initS α)

/-- Modelled from the spec: the router (from the application package, not
under src/) "registers a route handler for the load command keyed by that
pattern" and the plugin "subscribes to a one-shot routed event" — on a
routing request the router executes the registered command only when the
path matches its pattern, and then emits the `routed` signal. -/
def routerRoute {α : Type} (path : String) (fetched : Option α) : List (StEv α) :=
  if (matchWorkspace path).isSome then
    [StEv.load path fetched, StEv.routed]
  else
    [StEv.routed]

/-- Invariant of the activation state machine: either the transform has
settled, or the `routed` listener is still connected and `resolved` is
still false (so the first `routed` signal will settle it). -/
def stInv {α : Type} (s : StateSt α) : Prop :=
  s.transform.isSome = true ∨ (s.connected = true ∧ s.resolved = false)

/-! ## save-statedb command (lines 248-267) -/

/-- Calendar fields of the `new Date()` captured by the save command,
together with its millisecond epoch value. -/
structure DateT where
  year : Nat
  month : Nat
  day : Nat
  hour : Nat
  minute : Nat
  unixMs : Nat
  deriving DecidableEq, Repr

/-- Zero-pad a number to two digits (moment.js MM, DD, HH, mm tokens). -/
def pad2 (n : Nat) : String :=
  if n < 10 then "0" ++ toString n else toString n

/-- Zero-pad a number to four digits (moment.js YYYY token). -/
def pad4 (n : Nat) : String :=
  if n < 10 then "000" ++ toString n
  else if n < 100 then "00" ++ toString n
  else if n < 1000 then "0" ++ toString n
  else toString n

/-- Modelled from the spec: `Time.format(date, 'YYYYMMDDHHmm-x')` from
coreutils is not under src/; the spec says the workspace id produced on
save is "a timestamp formatted as YYYYMMDDHHmm-x" — padded year, month,
day, hour and minute digits, then a literal dash and the millisecond
epoch timestamp (the moment.js x token). -/
def timeFormat (d : DateT) : String :=
  pad4 d.year ++ pad2 d.month ++ pad2 d.day ++ pad2 d.hour ++ pad2 d.minute
    ++ "-" ++ toString d.unixMs

/-- Modelled from the spec: `URLExt.join` from coreutils is not under
src/; it joins the workspaces URL and the id into the shareable URL with
a path separator. -/
def joinUrl (a b : String) : String := a ++ "/" ++ b

/-- Side effects the save command performs, in order: the optimistic
`Clipboard.copyToSystem(url)` and the `workspaces.save(id, { data,
metadata: { id } })` call carrying the serialized store snapshot. -/
inductive SaveEff (α : Type)
  | clipboardCopy (url : String)
  | workspaceSave (id : String) (data : α) (metadataId : String)
  deriving DecidableEq, Repr

/-- Observable result of one execution of the save command: the ordered
effect list, the console warnings, and the promise returned to the
caller. -/
structure SaveResult (α : Type) where
  effects : List (SaveEff α)
  warnings : List String
  outcome : Except String Unit

/-- Model of the `apputils:save-statedb` execute handler (lines 251-266):
format the timestamp id, build the shareable URL, copy it to the system
clipboard optimistically (before the network save settles), then
serialize the store and persist it as a named workspace; a save rejection
(`saveOutcome = Except.error _`) is caught and logged as a warning, so
the returned promise always fulfills. -/
def saveStateExecute {α : Type} (d : DateT) (wsUrl : String) (snapshot : α)
    (saveOutcome : Except String Unit) : SaveResult α :=
  { effects := [SaveEff.clipboardCopy (joinUrl wsUrl (timeFormat d)),
                SaveEff.workspaceSave (timeFormat d) snapshot (timeFormat d)],
    warnings := match saveOutcome with
                | Except.ok _ => []
                | Except.error _ => [saveFailedWarning],
    outcome := Except.ok () }

/-! ## Theorems for the settings connector and theme command -/

/-- C5: for every remote settings service and every id,
`SettingsConnector.fetch(id)` succeeds only with an object whose `id`
field equals the requested id (even if the remote service returned a
different id), and a remote failure propagates unchanged to the caller. -/
theorem connectorFetch_id_and_propagation
    (remote : String → Except String PluginBundle) (id : String) :
    (∀ d, connectorFetch remote id = Except.ok d → d.id = id) ∧
    (∀ e, remote id = Except.error e → connectorFetch remote id = Except.error e) := by
  constructor
  · intro d hd
    cases hr : remote id with
    | ok d0 =>
        rw [connectorFetch, hr] at hd
        cases hd
        rfl
    | error e =>
        rw [connectorFetch, hr] at hd
        cases hd
  · intro e he
    rw [connectorFetch, he]

/-- Witness for C5: the mangling remote service returns id
"server-normalized", yet the connector hands back the requested id, and
the failing id's rejection reaches the caller. -/
theorem connectorFetch_id_and_propagation_witness :
    (⟨"pkg:plugin", "contents"⟩ : PluginBundle).id = "pkg:plugin" ∧
    connectorFetch remoteMangling "down:svc" = Except.error "network" :=
  ⟨(connectorFetch_id_and_propagation remoteMangling "pkg:plugin").1
      ⟨"pkg:plugin", "contents"⟩ rfl,
   (connectorFetch_id_and_propagation remoteMangling "down:svc").2 "network" rfl⟩

/-- C6: executing `apputils:change-theme` with the currently active theme
is a no-op (`setTheme` is not called, so the manager is untouched);
executing it with any other theme delegates to `manager.setTheme`. -/
theorem changeThemeExecute_noop_or_delegate (mgr : ThemeMgr) (t : String) :
    (mgr.theme = some t → changeThemeExecute mgr t = ThemeAct.noop) ∧
    (mgr.theme ≠ some t → changeThemeExecute mgr t = ThemeAct.set t) := by
  constructor
  · intro h
    simp [changeThemeExecute, h]
  · intro h
    simp [changeThemeExecute, h]

/-- Witness for C6 at a concrete manager: re-selecting the active theme is
a no-op and selecting another theme calls `setTheme`. -/
theorem changeThemeExecute_noop_or_delegate_witness :
    changeThemeExecute ⟨some "JupyterLab Light"⟩ "JupyterLab Light" = ThemeAct.noop ∧
    changeThemeExecute ⟨some "JupyterLab Light"⟩ "JupyterLab Dark" = ThemeAct.set "JupyterLab Dark" :=
  ⟨(changeThemeExecute_noop_or_delegate ⟨some "JupyterLab Light"⟩ "JupyterLab Light").1 rfl,
   (changeThemeExecute_noop_or_delegate ⟨some "JupyterLab Light"⟩ "JupyterLab Dark").2 (by decide)⟩

/-- C7: the command's label is the bare theme name for menu invocations
(`isPalette = false`) and "Use <theme> Theme" for palette invocations, and
its toggled state holds exactly when the argument equals the manager's
current theme. -/
theorem changeTheme_label_and_toggled (mgr : ThemeMgr) (t : String) :
    changeThemeLabel t false = t ∧
    changeThemeLabel t true = "Use " ++ t ++ " Theme" ∧
    (changeThemeIsToggled mgr t = true ↔ mgr.theme = some t) := by
  refine ⟨rfl, rfl, ?_⟩
  simp [changeThemeIsToggled]

/-- Witness for C7 at a concrete manager and theme argument. -/
theorem changeTheme_label_and_toggled_witness :
    changeThemeLabel "JupyterLab Dark" false = "JupyterLab Dark" ∧
    changeThemeLabel "JupyterLab Dark" true = "Use JupyterLab Dark Theme" ∧
    (changeThemeIsToggled ⟨some "JupyterLab Dark"⟩ "JupyterLab Dark" = true ↔
      (⟨some "JupyterLab Dark"⟩ : ThemeMgr).theme = some "JupyterLab Dark") :=
  changeTheme_label_and_toggled ⟨some "JupyterLab Dark"⟩ "JupyterLab Dark"

/-! ## Helper lemmas for the state database machine -/

/-- Resolving a promise cell always leaves it settled. -/
theorem resolveOnce_isSome {α : Type} (c : Option (DataTransform α))
    (v : DataTransform α) : (resolveOnce c v).isSome = true := by
  cases c <;> rfl

/-- Once the transform has settled, no later event changes its value:
every write goes through `resolveOnce` and the first write wins. -/
theorem stepS_keeps_some {α : Type} (s : StateSt α) (e : StEv α)
    (v : DataTransform α) (h : s.transform = some v) :
    (stepS s e).transform = some v := by
  cases e with
  | routed =>
      by_cases hc : s.connected = true
      · by_cases hr : s.resolved = true
        · simp [stepS, hc, unloadRun, hr, h]
        · simp [stepS, hc, unloadRun, hr, h, resolveOnce]
      · simp [stepS, hc, h]
  | load path fetched =>
      by_cases hg : s.registered = true
      · rcases hm : matchWorkspace path with _ | w
        · simp [stepS, hg, loadExecuteChecked, hm, h]
        · by_cases hw : w = ""
          · simp [stepS, hg, loadExecuteChecked, hm, hw, h, resolveOnce]
          · cases fetched with
            | some d => simp [stepS, hg, loadExecuteChecked, hm, hw, h, resolveOnce]
            | none => simp [stepS, hg, loadExecuteChecked, hm, hw, h, resolveOnce]
      · simp [stepS, hg, h]

/-- Settledness of the transform survives any tail of events. -/
theorem foldl_keeps_some {α : Type} (l : List (StEv α)) (s : StateSt α)
    (v : DataTransform α) (h : s.transform = some v) :
    (l.foldl stepS s).transform = some v := by
  induction l generalizing s with
  | nil => exact h
  | cons e tl ih => exact ih (stepS s e) (stepS_keeps_some s e v h)

/-- The activation state satisfies the invariant. -/
theorem stInv_initS (α : Type) : stInv (initS α) := Or.inr ⟨rfl, rfl⟩

/-- The invariant is inductive over every event. -/
theorem stInv_step {α : Type} (s : StateSt α) (e : StEv α) (h : stInv s) :
    stInv (stepS s e) := by
  rcases h with h | ⟨hc, hr⟩
  · obtain ⟨v, hv⟩ := Option.isSome_iff_exists.mp h
    exact Or.inl (by rw [stepS_keeps_some s e v hv]; rfl)
  · have hr2 : ¬s.resolved = true := by simp [hr]
    cases e with
    | routed =>
        refine Or.inl ?_
        simp [stepS, hc, unloadRun, hr2, resolveOnce_isSome]
    | load path fetched =>
        by_cases hg : s.registered = true
        · rcases hm : matchWorkspace path with _ | w
          · refine Or.inr ?_
            simp [stepS, hg, loadExecuteChecked, hm, hc, hr]
          · by_cases hw : w = ""
            · refine Or.inl ?_
              simp [stepS, hg, loadExecuteChecked, hm, hw, resolveOnce_isSome]
            · cases fetched with
              | some d =>
                  refine Or.inl ?_
                  simp [stepS, hg, loadExecuteChecked, hm, hw, resolveOnce_isSome]
              | none =>
                  refine Or.inl ?_
                  simp [stepS, hg, loadExecuteChecked, hm, hw, resolveOnce_isSome]
        · refine Or.inr ?_
          simp [stepS, hg, hc, hr]

/-- Under the invariant, a `routed` signal settles the transform. -/
theorem stepS_routed_isSome {α : Type} (s : StateSt α) (h : stInv s) :
    ((stepS s StEv.routed).transform).isSome = true := by
  rcases h with h | ⟨hc, hr⟩
  · obtain ⟨v, hv⟩ := Option.isSome_iff_exists.mp h
    rw [stepS_keeps_some s StEv.routed v hv]
    rfl
  · have hr2 : ¬s.resolved = true := by simp [hr]
    simp [stepS, hc, unloadRun, hr2, resolveOnce_isSome]

/-- Any trace containing a `routed` event ends with a settled transform. -/
theorem foldl_routed_isSome {α : Type} (l : List (StEv α)) (s : StateSt α)
    (hI : stInv s) (hm : StEv.routed ∈ l) :
    ((l.foldl stepS s).transform).isSome = true := by
  induction l generalizing s with
  | nil => cases hm
  | cons e tl ih =>
      rcases List.mem_cons.mp hm with he | htl
      · rw [List.foldl_cons, ← he]
        have h1 : ((stepS s StEv.routed).transform).isSome = true :=
          stepS_routed_isSome s hI
        obtain ⟨v, hv⟩ := Option.isSome_iff_exists.mp h1
        rw [foldl_keeps_some tl (stepS s StEv.routed) v hv]
        rfl
      · rw [List.foldl_cons]
        exact ih (stepS s e) (stInv_step s e hI) htl

/-- A matched workspace id is never the empty string: the capture group
`(.+)` requires at least one character. -/
theorem matchWorkspace_ne_empty (path : String) (w : String)
    (h : matchWorkspace path = some w) : w ≠ "" := by
  intro hw
  subst hw
  unfold matchWorkspace at h
  rcases hcl : chopLead "/workspaces/".data path.data with _ | rest
  · rw [hcl] at h
    cases h
  · rw [hcl] at h
    by_cases he : (rest.takeWhile jsDot).isEmpty = true
    · simp [he] at h
    · simp [he] at h
      have hd : rest.takeWhile jsDot = [] := congrArg String.data h
      rw [hd] at he
      exact he rfl

/-! ## Theorems for the state database plugin -/

/-- C1 counterexample: in an activation where the routing event fires
zero times and the load command is never invoked, the transform promise
is left unresolved, contradicting the claim that no execution path leaves
it unresolved. -/
theorem state_transform_unresolved_without_routing :
    (runS ([] : List (StEv Nat))).transform = none := rfl

/-- C1 (amended): the transform settles at most once — once it holds a
value, no later event changes it — and it settles on every execution path
in which the routing event fires at least once, regardless of whether the
load command is ever invoked. -/
theorem state_transform_amended {α : Type} (tr post : List (StEv α))
    (v : DataTransform α) :
    (StEv.routed ∈ tr → ((runS tr).transform).isSome = true) ∧
    ((runS tr).transform = some v → (runS (tr ++ post)).transform = some v) := by
  constructor
  · intro hm
    exact foldl_routed_isSome tr (initS α) (stInv_initS α) hm
  · intro hv
    unfold runS at hv ⊢
    rw [List.foldl_append]
    exact foldl_keeps_some post _ v hv

/-- Witness for C1 (amended) on a concrete trace: a single routing event
settles the transform, and its value survives a later load attempt. -/
theorem state_transform_amended_witness :
    ((runS ([StEv.routed] : List (StEv Nat))).transform).isSome = true ∧
    (runS (([StEv.routed] : List (StEv Nat)) ++ [StEv.load "/nope" none])).transform
      = some ⟨TType.cancel, none⟩ :=
  ⟨(state_transform_amended [StEv.routed] [] ⟨TType.cancel, none⟩).1
      (List.mem_singleton.mpr rfl),
   (state_transform_amended [StEv.routed] [StEv.load "/nope" none]
      ⟨TType.cancel, none⟩).2 rfl⟩

/-- C3: executing the load command with route path "/workspaces/abc"
extracts the workspace id "abc" and attempts a fetch; on fetch success
the transform resolves overwrite with the fetched data, and on fetch
failure it resolves cancel with null contents and logs a warning. -/
theorem loadState_workspace_abc (α : Type) (data : α) :
    matchWorkspace "/workspaces/abc" = some "abc" ∧
    (stepS (initS α) (StEv.load "/workspaces/abc" (some data))).transform
      = some ⟨TType.overwrite, some data⟩ ∧
    (stepS (initS α) (StEv.load "/workspaces/abc" none)).transform
      = some ⟨TType.cancel, none⟩ ∧
    (stepS (initS α) (StEv.load "/workspaces/abc" none)).warnings
      = [fetchFailedWarning "abc"] :=
  ⟨rfl, rfl, rfl, rfl⟩

/-- C4: when the routed path is "/" the workspace pattern does not match,
so the router never invokes the load command; the routing event resolves
the transform with cancel and null contents, and the browser URL is never
rewritten. -/
theorem route_root_cancels_without_rewrite (α : Type) :
    (runS (routerRoute "/" (none : Option α))).transform = some ⟨TType.cancel, none⟩ ∧
    (runS (routerRoute "/" (none : Option α))).urlRewritten = false :=
  ⟨rfl, rfl⟩

/-- C10: invoking the load command with a path that does not match the
workspace pattern throws — the null result of the regex match is indexed
unguarded, before any state is touched — and every matching path yields a
non-empty workspace id, so the command's internal "no workspace found"
cancel branch (the only source of that console.log line) is unreachable. -/
theorem loadState_nonmatching_throws (α : Type) (path : String) (f : Option α)
    (s : StateSt α) :
    (matchWorkspace path = none →
      loadExecuteChecked path f s = Except.error nullIndexTypeError) ∧
    (∀ w, matchWorkspace path = some w → w ≠ "") ∧
    (∀ w, matchWorkspace path = some w →
      (stepS (initS α) (StEv.load path f)).logs = []) := by
  refine ⟨?_, ?_, ?_⟩
  · intro h
    simp [loadExecuteChecked, h]
  · intro w h
    exact matchWorkspace_ne_empty path w h
  · intro w h
    have hw := matchWorkspace_ne_empty path w h
    cases f with
    | some d => simp [stepS, initS, loadExecuteChecked, h, hw]
    | none => simp [stepS, initS, loadExecuteChecked, h, hw]

/-- Witness for C10: the empty path and the bare root path both throw the
TypeError, a concrete matched id is non-empty, and a matched load leaves
the console.log stream empty. -/
theorem loadState_nonmatching_throws_witness :
    loadExecuteChecked "" (none : Option Nat) (initS Nat) = Except.error nullIndexTypeError ∧
    loadExecuteChecked "/" (none : Option Nat) (initS Nat) = Except.error nullIndexTypeError ∧
    ("a" : String) ≠ "" ∧
    (stepS (initS Nat) (StEv.load "/workspaces/a" none)).logs = [] :=
  ⟨(loadState_nonmatching_throws Nat "" none (initS Nat)).1 (by decide),
   (loadState_nonmatching_throws Nat "/" none (initS Nat)).1 (by decide),
   (loadState_nonmatching_throws Nat "/workspaces/a" none (initS Nat)).2.1 "a" (by decide),
   (loadState_nonmatching_throws Nat "/workspaces/a" none (initS Nat)).2.2 "a" (by decide)⟩

/-! ## Theorems for the splash screen -/

/-- The splash count stays non-negative along any trace. -/
theorem foldl_count_nonneg (tr : List SpEv) (s : SplashSt) (h : 0 ≤ s.count) :
    0 ≤ (tr.foldl stepSp s).count := by
  induction tr generalizing s with
  | nil => exact h
  | cons e tl ih =>
      apply ih
      cases e with
      | showSplash =>
          simp only [stepSp]
          omega
      | dispose =>
          simp only [stepSp]
          split
          · exact le_max_right _ _
          · exact le_max_right _ _
      | timeout =>
          rcases hp : s.pending with _ | ⟨a, rest⟩ <;> simp [stepSp, hp, h]

/-- C2 (code evaluated at the failing input): after `show()`, a dispose
that drops the count to zero and schedules removal, a second `show()`
during the pending fade, and the un-cancelled 500ms timeout firing, the
overlay has been removed from the document while the reference count is
1 — the new `show()` did not cancel the scheduled removal. -/
theorem splash_removed_while_count_positive :
    (runSp [SpEv.showSplash, SpEv.dispose, SpEv.showSplash, SpEv.timeout]).count = 1 ∧
    (runSp [SpEv.showSplash, SpEv.dispose, SpEv.showSplash, SpEv.timeout]).attached = false := by
  decide

/-- C8: the splash reference count never goes negative on any trace; a
disposal decrements the count floored at zero; the fade class and the
scheduled removal change only when the new count is zero; and when the
count reaches zero with the node created, the fade class is applied and
one removal is scheduled after the fixed 500ms delay. -/
theorem splash_count_nonneg_fade_at_zero (tr : List SpEv) (s : SplashSt) :
    0 ≤ (runSp tr).count ∧
    (stepSp s SpEv.dispose).count = max (s.count - 1) 0 ∧
    ((stepSp s SpEv.dispose).pending ≠ s.pending ∨
        (stepSp s SpEv.dispose).fading ≠ s.fading →
      (stepSp s SpEv.dispose).count = 0) ∧
    ((stepSp s SpEv.dispose).count = 0 → s.created = true →
      (stepSp s SpEv.dispose).fading = true ∧
      (stepSp s SpEv.dispose).pending = s.pending ++ [fadeDelayMs]) := by
  refine ⟨foldl_count_nonneg tr initSp (le_refl 0), ?_, ?_, ?_⟩
  · simp only [stepSp]
    by_cases hc : max (s.count - 1) 0 = 0 ∧ s.created = true
    · rw [if_pos hc]
    · rw [if_neg hc]
  · intro hne
    simp only [stepSp] at hne ⊢
    by_cases hc : max (s.count - 1) 0 = 0 ∧ s.created = true
    · rw [if_pos hc]
      exact hc.1
    · rw [if_neg hc] at hne
      simp at hne
  · intro h0 hcr
    simp only [stepSp] at h0 ⊢
    by_cases hc : max (s.count - 1) 0 = 0 ∧ s.created = true
    · rw [if_pos hc]
      exact ⟨rfl, rfl⟩
    · rw [if_neg hc] at h0
      exact absurd ⟨h0, hcr⟩ hc

/-- Witness for C8 at a concrete trace and state: one show leaves a
non-negative count, and disposing the last outstanding handle drops the
count to zero, applies the fade class and schedules one 500ms removal. -/
theorem splash_count_nonneg_fade_at_zero_witness :
    0 ≤ (runSp [SpEv.showSplash]).count ∧
    (stepSp ⟨true, false, true, 1, []⟩ SpEv.dispose).count = 0 ∧
    (stepSp ⟨true, false, true, 1, []⟩ SpEv.dispose).fading = true ∧
    (stepSp ⟨true, false, true, 1, []⟩ SpEv.dispose).pending = [] ++ [fadeDelayMs] := by
  have h := splash_count_nonneg_fade_at_zero [SpEv.showSplash] ⟨true, false, true, 1, []⟩
  have hc : (stepSp (⟨true, false, true, 1, []⟩ : SplashSt) SpEv.dispose).count = 0 :=
    h.2.2.1 (Or.inl (by decide))
  have hf := h.2.2.2 hc rfl
  exact ⟨h.1, hc, hf.1, hf.2⟩

/-! ## Theorems for the save command -/

/-- C9: the save command formats the timestamp-based workspace id as
YYYYMMDDHHmm-x, copies the shareable workspace URL to the clipboard
before the workspace save effect, persists the serialized snapshot as a
named workspace carrying the same id in its metadata, never rejects (a
save failure is caught), and warns exactly when the save fails. -/
theorem saveState_effects (α : Type) (d : DateT) (wsUrl : String) (snap : α)
    (so : Except String Unit) :
    (saveStateExecute d wsUrl snap so).effects =
      [SaveEff.clipboardCopy (joinUrl wsUrl (timeFormat d)),
       SaveEff.workspaceSave (timeFormat d) snap (timeFormat d)] ∧
    (saveStateExecute d wsUrl snap so).outcome = Except.ok () ∧
    ((saveStateExecute d wsUrl snap so).warnings ≠ [] ↔ ∃ e, so = Except.error e) ∧
    timeFormat ⟨2018, 3, 5, 14, 7, 1520258820000⟩ = "201803051407-1520258820000" := by
  refine ⟨rfl, rfl, ?_, by decide⟩
  cases so with
  | ok u => simp [saveStateExecute]
  | error e => simp [saveStateExecute]

/-- Witness for C9 at a concrete date, URL and failing save outcome. -/
theorem saveState_effects_witness :
    (saveStateExecute ⟨2018, 3, 5, 14, 7, 1520258820000⟩ "lab/workspaces" (0 : Nat)
        (Except.error "offline")).effects =
      [SaveEff.clipboardCopy (joinUrl "lab/workspaces" (timeFormat ⟨2018, 3, 5, 14, 7, 1520258820000⟩)),
       SaveEff.workspaceSave (timeFormat ⟨2018, 3, 5, 14, 7, 1520258820000⟩) 0
         (timeFormat ⟨2018, 3, 5, 14, 7, 1520258820000⟩)] ∧
    (saveStateExecute ⟨2018, 3, 5, 14, 7, 1520258820000⟩ "lab/workspaces" (0 : Nat)
        (Except.error "offline")).outcome = Except.ok () ∧
    (saveStateExecute ⟨2018, 3, 5, 14, 7, 1520258820000⟩ "lab/workspaces" (0 : Nat)
        (Except.error "offline")).warnings ≠ [] := by
  have h := saveState_effects Nat ⟨2018, 3, 5, 14, 7, 1520258820000⟩ "lab/workspaces" 0
    (Except.error "offline")
  exact ⟨h.1, h.2.1, h.2.2.1.mpr ⟨"offline", rfl⟩⟩
